import Mathlib

/-!
Shallow embedding of the MySQL MCP server (`src/index.ts`).

The server reads its configuration from the process environment, exposes
four tools (`query`, `insert`, `update`, `delete`) over the MCP protocol,
classifies incoming statements by lexical prefix, gates write tools behind
the `MYSQL_ALLOW_WRITE_OPS` flag, and executes statements over a fresh
connection per call, normalizing every database failure into a flagged
error outcome.

The database driver is modelled as an oracle (`DbBehavior`) supplying the
outcome of `mysql.createConnection` and of `connection.execute`; the
handler and gateway functions additionally return a `Trace` recording how
many connection attempts, opens and releases occurred and which statement
texts were passed to `connection.execute`.
-/

/-- JS values that can appear as MCP tool-call arguments (`request.params.arguments`). -/
inductive JsArg
  | jsUndefined
  | jsNull
  | jsBool (b : Bool)
  | jsNumV (n : Int)
  | jsStr (s : String)
  | jsObj (fields : List (String × JsArg))

/-- Model of the JS `typeof x === 'object'` test (true for objects and for `null`). -/
def JsArg.typeofIsObject : JsArg → Bool
  | .jsObj _ => true
  | .jsNull => true
  | _ => false

/-- Model of the JS `x === null` test. -/
def JsArg.isJsNull : JsArg → Bool
  | .jsNull => true
  | _ => false

/-- Property access `args.k`: first matching key of an object, else undefined. -/
def JsArg.getProp : JsArg → String → Option JsArg
  | .jsObj fields, k => (fields.find? (fun p => p.1 == k)).map (fun p => p.2)
  | _, _ => none

/-- Model of `typeof args.sql === 'string'`. -/
def JsArg.sqlIsString (args : JsArg) : Bool :=
  match args.getProp "sql" with
  | some (.jsStr _) => true
  | _ => false

/-- Type guard `isValidQueryArgs` from the source:
`typeof args === 'object' && args !== null && typeof args.sql === 'string'`. -/
def isValidQueryArgs (args : JsArg) : Bool :=
  args.typeofIsObject && !args.isJsNull && args.sqlIsString

/-- Type guard `isValidWriteArgs` from the source (textually the same test). -/
def isValidWriteArgs (args : JsArg) : Bool :=
  args.typeofIsObject && !args.isJsNull && args.sqlIsString

/-- The `args.sql` string read after the type guard has accepted `args`. -/
def getSqlField (args : JsArg) : String :=
  match args.getProp "sql" with
  | some (.jsStr s) => s
  | _ => ""

/-- JS `String.prototype.toLowerCase` (character-wise, as used on SQL text). -/
def jsToLower (s : String) : String :=
  String.mk (s.data.map Char.toLower)

/-- JS `String.prototype.toUpperCase` (character-wise, as used on tool names). -/
def jsToUpper (s : String) : String :=
  String.mk (s.data.map Char.toUpper)

/-- JS `String.prototype.trim`: strip whitespace from both ends. -/
def jsTrim (s : String) : String :=
  String.mk (((s.data.dropWhile (fun c => c.isWhitespace)).reverse.dropWhile
    (fun c => c.isWhitespace)).reverse)

/-- JS `String.prototype.startsWith`. -/
def jsStartsWith (s pre : String) : Bool :=
  pre.data.isPrefixOf s.data

/-- A JS number that may be `NaN` (`parseInt` can produce `NaN`). -/
inductive JsNumber
  | nan
  | num (n : Int)
deriving DecidableEq

/-- Model of JS `parseInt(s, 10)`: skip leading whitespace, read an optional
sign, then the longest prefix of decimal digits; no digits means `NaN`. -/
def jsParseInt10 (s : String) : JsNumber :=
  let t := s.data.dropWhile (fun c => c.isWhitespace)
  let signAndRest : Int × List Char :=
    match t with
    | '-' :: r => (-1, r)
    | '+' :: r => (1, r)
    | r => (1, r)
  let digits := signAndRest.2.takeWhile (fun c => c.isDigit)
  if digits.isEmpty then .nan
  else .num (signAndRest.1 *
    (digits.foldl (fun acc c => acc * 10 + (c.toNat - '0'.toNat)) 0 : Nat))

/-- Model of JS truthiness for an environment variable (`undefined` and the
empty string are falsy). -/
def truthyStr : Option String → Bool
  | some s => !s.isEmpty
  | none => false

/-- The relevant process environment variables (each possibly unset). -/
structure MysqlEnv where
  host : Option String
  user : Option String
  password : Option String
  database : Option String
  port : Option String
  allowWriteOps : Option String

/-- Line 18 of the source:
`const MYSQL_ALLOW_WRITE_OPS = process.env.MYSQL_ALLOW_WRITE_OPS === 'true'`. -/
def mysqlAllowWriteOps (v : Option String) : Bool :=
  v == some "true"

/-- The `connectionConfig` object built at startup. -/
structure ConnectionConfig where
  host : String
  user : String
  password : String
  database : String
  port : JsNumber
deriving DecidableEq

/-- Startup (lines 13-31 of the source): compute the port via the truthiness
ternary, compute the write flag, then exit with a diagnostic when any of
host/user/password/database is falsy, else build `connectionConfig`. -/
def loadStartup (env : MysqlEnv) : Except String (ConnectionConfig × Bool) :=
  let mysqlPort : JsNumber :=
    match env.port with
    | some s => if !s.isEmpty then jsParseInt10 s else .num 3306
    | none => .num 3306
  let allowWrite := mysqlAllowWriteOps env.allowWriteOps
  if !truthyStr env.host || !truthyStr env.user || !truthyStr env.password
      || !truthyStr env.database then
    .error "Missing MySQL connection environment variables (MYSQL_HOST, MYSQL_USER, MYSQL_PASSWORD, MYSQL_DATABASE)"
  else
    .ok (⟨env.host.getD "", env.user.getD "", env.password.getD "",
          env.database.getD "", mysqlPort⟩, allowWrite)

/-- JS values that can appear in a driver row set (result of a read). The
driver delivers out-of-double-range 64-bit integers as `bigint`. -/
inductive JsValue
  | jNull
  | jBool (b : Bool)
  | jNum (n : Int)
  | jStr (s : String)
  | jBig (n : Int)
  | jArr (elems : List JsValue)
  | jObj (fields : List (String × JsValue))

/-- One escaped character of a JSON string literal, per `JSON.stringify`. -/
def jsonEscapeChar (c : Char) : String :=
  if c = '"' then "\\\""
  else if c = '\\' then "\\\\"
  else if c = '\n' then "\\n"
  else if c = '\r' then "\\r"
  else if c = '\t' then "\\t"
  else if c = '\x08' then "\\b"
  else if c = '\x0c' then "\\f"
  else if c.toNat < 0x20 then
    "\\u00" ++ String.mk [Nat.digitChar (c.toNat / 16), Nat.digitChar (c.toNat % 16)]
  else String.singleton c

/-- Escape every character of a JSON string body. -/
def jsonEscList : List Char → List Char
  | [] => []
  | c :: cs => (jsonEscapeChar c).data ++ jsonEscList cs

/-- A JSON string literal: quotes around the escaped body. -/
def jsonQuote (s : String) : String :=
  "\"" ++ String.mk (jsonEscList s.data) ++ "\""

/-- Indentation produced by `JSON.stringify(-, -, 2)` at nesting depth `d`. -/
def jsonIndent (d : Nat) : String :=
  String.mk (List.replicate (2 * d) ' ')

mutual

/-- `JSON.stringify(v, replacer, 2)` where `replacer` maps every `bigint` to
`value.toString()` (its exact decimal digits) before serialization, exactly
as in `executeQuery`.  With this replacer no `bigint` ever reaches the raw
serializer, so the function is total: serialization cannot throw. -/
def jsonStringify (d : Nat) : JsValue → String
  | .jNull => "null"
  | .jBool b => if b then "true" else "false"
  | .jNum n => Int.repr n
  | .jStr s => jsonQuote s
  | .jBig n => jsonQuote (Int.repr n)
  | .jArr [] => "[]"
  | .jArr (x :: xs) =>
    "[\n" ++ jsonStringifyItems (d + 1) (x :: xs) ++ "\n" ++ jsonIndent d ++ "]"
  | .jObj [] => "\x7b\x7d"
  | .jObj (f :: fs) =>
    "\x7b\n" ++ jsonStringifyFields (d + 1) (f :: fs) ++ "\n" ++ jsonIndent d ++ "\x7d"

/-- Array items at depth `d`, each on its own indented line, comma-separated. -/
def jsonStringifyItems (d : Nat) : List JsValue → String
  | [] => ""
  | [x] => jsonIndent d ++ jsonStringify d x
  | x :: y :: xs =>
    jsonIndent d ++ jsonStringify d x ++ ",\n" ++ jsonStringifyItems d (y :: xs)

/-- Object fields at depth `d`, each on its own indented line, comma-separated. -/
def jsonStringifyFields (d : Nat) : List (String × JsValue) → String
  | [] => ""
  | [(k, v)] => jsonIndent d ++ jsonQuote k ++ ": " ++ jsonStringify d v
  | (k, v) :: f :: fs =>
    jsonIndent d ++ jsonQuote k ++ ": " ++ jsonStringify d v ++ ",\n" ++
      jsonStringifyFields d (f :: fs)

end

/-- The `mysql2` result header for a write statement; `'affectedRows' in
result` and `'insertId' in result` test field presence, hence `Option`. -/
structure WriteResult where
  affectedRows : Option Nat
  insertId : Option Nat
deriving DecidableEq

/-- Oracle for the database driver: the outcome of `mysql.createConnection`
(with its error message when it rejects) and of `connection.execute` on a
given statement, for the read and the write call sites. -/
structure DbBehavior where
  connect : Except String Unit
  readRows : String → Except String JsValue
  writeResult : String → Except String WriteResult

/-- What one tool invocation observed of the driver: connection attempts,
connections actually opened, connections released (`connection.end()`), and
the statement texts passed to `connection.execute`. -/
structure Trace where
  connectAttempts : Nat
  opened : Nat
  released : Nat
  executed : List String
deriving DecidableEq

/-- The MCP tool outcome: the text content and the `isError` flag (absent in
the source's success objects, modelled as `false`). -/
structure ToolOutcome where
  text : String
  isError : Bool
deriving DecidableEq

/-- The two `McpError` codes thrown by the handler. -/
inductive McpErrorCode
  | invalidParams
  | methodNotFound
deriving DecidableEq

/-- Result of the call-tool handler: either a thrown protocol-level
`McpError` or a returned tool outcome. -/
inductive HandlerResult
  | protocolError (code : McpErrorCode) (msg : String)
  | outcome (o : ToolOutcome)
deriving DecidableEq

/-- `executeQuery` (lines 189-211): open a fresh connection, execute the
statement, serialize the rows with the bigint replacer; on any failure
release the connection if one was acquired and return a flagged error whose
text is `MySQL Query Error: ` followed by the engine's message.  The return
type is a plain pair, embedding the source's guarantee that no exception
escapes this boundary. -/
def executeQuery (db : DbBehavior) (sqlQuery : String) : ToolOutcome × Trace :=
  match db.connect with
  | .error e =>
    (⟨"MySQL Query Error: " ++ e, true⟩, ⟨1, 0, 0, []⟩)
  | .ok _ =>
    match db.readRows sqlQuery with
    | .error e =>
      (⟨"MySQL Query Error: " ++ e, true⟩, ⟨1, 1, 1, [sqlQuery]⟩)
    | .ok rows =>
      (⟨jsonStringify 0 rows, false⟩, ⟨1, 1, 1, [sqlQuery]⟩)

/-- `executeWrite` (lines 214-240): same connection discipline; on success
build `"{OPERATION} successful."` plus the affected-rows clause when the
field is present and the insert-id clause when present and nonzero; on any
failure release the acquired connection and return a flagged error whose
text is `MySQL {OPERATION} Error: ` followed by the engine's message. -/
def executeWrite (db : DbBehavior) (sqlStatement : String) (operation : String) :
    ToolOutcome × Trace :=
  match db.connect with
  | .error e =>
    (⟨"MySQL " ++ jsToUpper operation ++ " Error: " ++ e, true⟩, ⟨1, 0, 0, []⟩)
  | .ok _ =>
    match db.writeResult sqlStatement with
    | .error e =>
      (⟨"MySQL " ++ jsToUpper operation ++ " Error: " ++ e, true⟩,
        ⟨1, 1, 1, [sqlStatement]⟩)
    | .ok result =>
      let m1 := jsToUpper operation ++ " successful."
      let m2 := match result.affectedRows with
        | some n => m1 ++ " Affected rows: " ++ Nat.repr n ++ "."
        | none => m1
      let m3 := match result.insertId with
        | some id => if id ≠ 0 then m2 ++ " Insert ID: " ++ Nat.repr id ++ "." else m2
        | none => m2
      (⟨m3, false⟩, ⟨1, 1, 1, [sqlStatement]⟩)

/-- The write-tool membership test `['insert', 'update', 'delete'].includes(toolName)`. -/
def writeToolNames : List String := ["insert", "update", "delete"]

/-- The policy outcome text returned when write operations are disabled. -/
def writesDisabledMsg (toolName : String) : String :=
  "Error: Write operations are disabled. Set MYSQL_ALLOW_WRITE_OPS=true in MCP settings to enable "
    ++ toolName ++ "."

/-- The `McpError` message for malformed arguments of a given tool. -/
def invalidArgsMsg (toolName : String) : String :=
  "Invalid arguments for " ++ toolName ++ " tool. Expected \x7b \"sql\": \"...\" \x7d"

/-- The policy outcome text rejecting a non-read statement on the query tool. -/
def queryOnlyMsg : String :=
  "Error: Only SELECT, SHOW, or DESCRIBE queries are allowed for the \"query\" tool."

/-- The policy outcome text rejecting a write statement whose prefix does not
match the tool name. -/
def stmtMismatchMsg (toolName : String) : String :=
  "Error: SQL statement does not appear to be a valid " ++ jsToUpper toolName ++ " statement."

/-- The empty driver trace for handler paths that never touch the gateway. -/
def noDbTrace : Trace := ⟨0, 0, 0, []⟩

/-- The call-tool request handler (lines 125-185): the query branch
validates argument shape, then classifies by lower-cased/trimmed prefix
against select/show/describe, then delegates to `executeQuery`; the write
branch checks the write-enable flag first, then argument shape, then that
the normalized statement starts with the tool name, then delegates to
`executeWrite`; any other tool name is a method-not-found protocol error. -/
def handleCallTool (allowWriteOps : Bool) (db : DbBehavior) (toolName : String)
    (args : JsArg) : HandlerResult × Trace :=
  if toolName = "query" then
    if !isValidQueryArgs args then
      (.protocolError .invalidParams (invalidArgsMsg "query"), noDbTrace)
    else
      let sqlQuery := getSqlField args
      let lowerCaseQuery := jsTrim (jsToLower sqlQuery)
      if !jsStartsWith lowerCaseQuery "select" && !jsStartsWith lowerCaseQuery "show"
          && !jsStartsWith lowerCaseQuery "describe" then
        (.outcome ⟨queryOnlyMsg, true⟩, noDbTrace)
      else
        let r := executeQuery db sqlQuery
        (.outcome r.1, r.2)
  else if writeToolNames.contains toolName then
    if !allowWriteOps then
      (.outcome ⟨writesDisabledMsg toolName, true⟩, noDbTrace)
    else if !isValidWriteArgs args then
      (.protocolError .invalidParams (invalidArgsMsg toolName), noDbTrace)
    else
      let sqlStatement := getSqlField args
      let lowerCaseStatement := jsTrim (jsToLower sqlStatement)
      if !jsStartsWith lowerCaseStatement toolName then
        (.outcome ⟨stmtMismatchMsg toolName, true⟩, noDbTrace)
      else
        let r := executeWrite db sqlStatement toolName
        (.outcome r.1, r.2)
  else
    (.protocolError .methodNotFound ("Unknown tool: " ++ toolName), noDbTrace)

/-- The leading whitespace-delimited token of a string (used to state the
claims that speak of a statement's "leading token"). -/
def firstToken (s : String) : String :=
  String.mk (s.data.takeWhile (fun c => !c.isWhitespace))

/-- `a` occurs contiguously inside `b` (substring on the character lists). -/
def StrSub (a b : String) : Prop :=
  ∃ p s : List Char, p ++ a.data ++ s = b.data

theorem strData_append (a b : String) : (a ++ b).data = a.data ++ b.data := rfl

theorem strSub_refl (a : String) : StrSub a a :=
  ⟨[], [], by simp⟩

theorem strSub_appendL {a b : String} (c : String) (h : StrSub a b) :
    StrSub a (b ++ c) := by
  obtain ⟨p, s, hp⟩ := h
  exact ⟨p, s ++ c.data, by rw [strData_append, ← hp]; simp⟩

theorem strSub_appendR {a c : String} (b : String) (h : StrSub a c) :
    StrSub a (b ++ c) := by
  obtain ⟨p, s, hp⟩ := h
  exact ⟨b.data ++ p, s, by rw [strData_append, ← hp]; simp⟩

theorem strSub_trans {a b c : String} (h1 : StrSub a b) (h2 : StrSub b c) :
    StrSub a c := by
  obtain ⟨p, s, hp⟩ := h1
  obtain ⟨q, t, hq⟩ := h2
  exact ⟨q ++ p, s ++ t, by rw [← hq, ← hp]; simp⟩

/-- The characters that can occur in the decimal form of an integer. -/
def decimalChars : List Char :=
  ['0', '1', '2', '3', '4', '5', '6', '7', '8', '9', '-']

theorem digitChar_mem_decimalChars {k : Nat} (hk : k < 10) :
    Nat.digitChar k ∈ decimalChars := by
  interval_cases k <;> decide

theorem toDigitsCore_mem_decimalChars (f : Nat) :
    ∀ (n : Nat) (l : List Char), (∀ c ∈ l, c ∈ decimalChars) →
      ∀ c ∈ Nat.toDigitsCore 10 f n l, c ∈ decimalChars := by
  induction f with
  | zero => intro n l hl c hc; exact hl c hc
  | succ f ih =>
    intro n l hl c hc
    rw [Nat.toDigitsCore] at hc
    have hd : Nat.digitChar (n % 10) ∈ decimalChars :=
      digitChar_mem_decimalChars (Nat.mod_lt n (by norm_num))
    have hl2 : ∀ x ∈ Nat.digitChar (n % 10) :: l, x ∈ decimalChars := by
      intro x hx
      rcases List.mem_cons.mp hx with hx | hx
      · exact hx ▸ hd
      · exact hl x hx
    by_cases hz : n / 10 = 0
    · simp only [hz, if_pos rfl] at hc
      exact hl2 c hc
    · simp only [if_neg hz] at hc
      exact ih (n / 10) (Nat.digitChar (n % 10) :: l) hl2 c hc

theorem natRepr_mem_decimalChars (n : Nat) :
    ∀ c ∈ (Nat.repr n).data, c ∈ decimalChars := by
  intro c hc
  have : (Nat.repr n).data = Nat.toDigitsCore 10 (n + 1) n [] := rfl
  rw [this] at hc
  exact toDigitsCore_mem_decimalChars (n + 1) n [] (by intro c h; cases h) c hc

theorem intRepr_mem_decimalChars (n : Int) :
    ∀ c ∈ (Int.repr n).data, c ∈ decimalChars := by
  intro c hc
  cases n with
  | ofNat m => exact natRepr_mem_decimalChars m c hc
  | negSucc m =>
    have : (Int.repr (Int.negSucc m)).data = '-' :: (Nat.repr (m + 1)).data := rfl
    rw [this] at hc
    rcases List.mem_cons.mp hc with hc | hc
    · exact hc ▸ (by decide)
    · exact natRepr_mem_decimalChars (m + 1) c hc

theorem jsonEscapeChar_decimal {c : Char} (h : c ∈ decimalChars) :
    jsonEscapeChar c = String.singleton c := by
  fin_cases h <;> decide

theorem jsonEscList_decimal {l : List Char} (h : ∀ c ∈ l, c ∈ decimalChars) :
    jsonEscList l = l := by
  induction l with
  | nil => rfl
  | cons c cs ih =>
    rw [jsonEscList, jsonEscapeChar_decimal (h c (List.mem_cons_self c cs)),
      ih (fun x hx => h x (List.mem_cons_of_mem c hx))]
    rfl

/-- The decimal form of an integer survives JSON string quoting verbatim. -/
theorem strSub_quote_intRepr (n : Int) : StrSub (Int.repr n) (jsonQuote (Int.repr n)) := by
  refine ⟨['"'], ['"'], ?_⟩
  show '"' :: ((Int.repr n).data ++ ['"']) = (jsonQuote (Int.repr n)).data
  rw [jsonQuote]
  show _ = '"' :: (String.mk (jsonEscList (Int.repr n).data) ++ "\"").data
  rw [jsonEscList_decimal (intRepr_mem_decimalChars n)]
  rfl

/-- The value `jBig n` occurs somewhere inside a row-set value. -/
inductive OccursBig (n : Int) : JsValue → Prop
  | here : OccursBig n (.jBig n)
  | inArr {x : JsValue} {xs : List JsValue} :
      OccursBig n x → x ∈ xs → OccursBig n (.jArr xs)
  | inObj {k : String} {x : JsValue} {fs : List (String × JsValue)} :
      OccursBig n x → (k, x) ∈ fs → OccursBig n (.jObj fs)

theorem strSub_items {t : String} (d : Nat) (x : JsValue) :
    ∀ xs : List JsValue, x ∈ xs → StrSub t (jsonStringify d x) →
      StrSub t (jsonStringifyItems d xs) := by
  intro xs
  induction xs with
  | nil => intro h; cases h
  | cons y ys ih =>
    intro hmem h
    rcases List.mem_cons.mp hmem with heq | hmem2
    · subst heq
      cases ys with
      | nil =>
        rw [jsonStringifyItems]
        exact strSub_appendR _ h
      | cons z zs =>
        rw [jsonStringifyItems]
        exact strSub_appendL _ (strSub_appendL _ (strSub_appendR _ h))
    · have hys := ih hmem2 h
      cases ys with
      | nil => cases hmem2
      | cons z zs =>
        rw [jsonStringifyItems]
        exact strSub_appendR _ hys

theorem strSub_fields {t : String} (d : Nat) (k : String) (x : JsValue) :
    ∀ fs : List (String × JsValue), (k, x) ∈ fs → StrSub t (jsonStringify d x) →
      StrSub t (jsonStringifyFields d fs) := by
  intro fs
  induction fs with
  | nil => intro h; cases h
  | cons f gs ih =>
    intro hmem h
    rcases List.mem_cons.mp hmem with heq | hmem2
    · subst heq
      cases gs with
      | nil =>
        rw [jsonStringifyFields]
        exact strSub_appendR _ h
      | cons g hs =>
        rw [jsonStringifyFields]
        exact strSub_appendL _ (strSub_appendL _ (strSub_appendR _ h))
    · have hgs := ih hmem2 h
      cases gs with
      | nil => cases hmem2
      | cons g hs =>
        rcases f with ⟨fk, fv⟩
        rw [jsonStringifyFields]
        exact strSub_appendR _ hgs

/-- Wherever a bigint occurs in a row set, its exact decimal digits occur in
the serialized JSON text. -/
theorem occursBig_strSub {n : Int} {v : JsValue} (h : OccursBig n v) :
    ∀ d : Nat, StrSub (Int.repr n) (jsonStringify d v) := by
  induction h with
  | here =>
    intro d
    rw [jsonStringify]
    exact strSub_quote_intRepr n
  | @inArr x xs hocc hmem ih =>
    intro d
    have hx := strSub_items (d + 1) x xs hmem (ih (d + 1))
    cases xs with
    | nil => cases hmem
    | cons y ys =>
      rw [jsonStringify]
      exact strSub_appendL _ (strSub_appendL _ (strSub_appendL _ (strSub_appendR _ hx)))
  | @inObj k x fs hocc hmem ih =>
    intro d
    have hx := strSub_fields (d + 1) k x fs hmem (ih (d + 1))
    cases fs with
    | nil => cases hmem
    | cons f gs =>
      rw [jsonStringify]
      exact strSub_appendL _ (strSub_appendL _ (strSub_appendL _ (strSub_appendR _ hx)))

theorem handle_query_eq (allowW : Bool) (db : DbBehavior) (args : JsArg) :
    handleCallTool allowW db "query" args =
      (if !isValidQueryArgs args then
        (.protocolError .invalidParams (invalidArgsMsg "query"), noDbTrace)
      else
        let sqlQuery := getSqlField args
        let lowerCaseQuery := jsTrim (jsToLower sqlQuery)
        if !jsStartsWith lowerCaseQuery "select" && !jsStartsWith lowerCaseQuery "show"
            && !jsStartsWith lowerCaseQuery "describe" then
          (.outcome ⟨queryOnlyMsg, true⟩, noDbTrace)
        else
          (.outcome (executeQuery db sqlQuery).1, (executeQuery db sqlQuery).2)) := rfl

theorem handle_write_eq (allowW : Bool) (db : DbBehavior) (args : JsArg)
    (toolName : String) (h : toolName ∈ writeToolNames) :
    handleCallTool allowW db toolName args =
      (if !allowW then
        (.outcome ⟨writesDisabledMsg toolName, true⟩, noDbTrace)
      else if !isValidWriteArgs args then
        (.protocolError .invalidParams (invalidArgsMsg toolName), noDbTrace)
      else
        let sqlStatement := getSqlField args
        let lowerCaseStatement := jsTrim (jsToLower sqlStatement)
        if !jsStartsWith lowerCaseStatement toolName then
          (.outcome ⟨stmtMismatchMsg toolName, true⟩, noDbTrace)
        else
          (.outcome (executeWrite db sqlStatement toolName).1,
            (executeWrite db sqlStatement toolName).2)) := by
  simp only [writeToolNames, List.mem_cons, List.not_mem_nil, or_false] at h
  rcases h with rfl | rfl | rfl <;> rfl

/-- A driver oracle that always connects and answers reads with an empty row
set and writes with zero affected rows. -/
def dbOkEmpty : DbBehavior :=
  ⟨.ok (), fun _ => .ok (.jArr []), fun _ => .ok ⟨some 0, some 0⟩⟩

/-- C1: with the write-enable flag false, every invocation of insert, update
or delete — whatever the arguments, hence whatever the statement text —
returns the flagged-error outcome whose text names MYSQL_ALLOW_WRITE_OPS
and the blocked tool, and the driver is never asked for a connection. -/
theorem c1_write_gate_blocks_all (db : DbBehavior) (toolName : String) (args : JsArg)
    (h : toolName ∈ writeToolNames) :
    handleCallTool false db toolName args =
      (.outcome ⟨writesDisabledMsg toolName, true⟩, noDbTrace) ∧
    StrSub "MYSQL_ALLOW_WRITE_OPS" (writesDisabledMsg toolName) ∧
    StrSub toolName (writesDisabledMsg toolName) ∧
    (handleCallTool false db toolName args).2.connectAttempts = 0 := by
  have he : handleCallTool false db toolName args =
      (.outcome ⟨writesDisabledMsg toolName, true⟩, noDbTrace) := by
    rw [handle_write_eq false db args toolName h]
    simp
  have hA : StrSub "MYSQL_ALLOW_WRITE_OPS"
      "Error: Write operations are disabled. Set MYSQL_ALLOW_WRITE_OPS=true in MCP settings to enable " :=
    ⟨"Error: Write operations are disabled. Set ".data,
      "=true in MCP settings to enable ".data, by decide⟩
  refine ⟨he, ?_, ?_, by rw [he]; rfl⟩
  · exact strSub_appendL "." (strSub_appendL toolName hA)
  · exact strSub_appendL "."
      (strSub_appendR
        "Error: Write operations are disabled. Set MYSQL_ALLOW_WRITE_OPS=true in MCP settings to enable "
        (strSub_refl toolName))

/-- C1 witness: the insert tool blocked at a concrete invocation. -/
theorem c1_write_gate_blocks_all_witness :
    handleCallTool false dbOkEmpty "insert" JsArg.jsNull =
      (.outcome ⟨writesDisabledMsg "insert", true⟩, noDbTrace) ∧
    StrSub "MYSQL_ALLOW_WRITE_OPS" (writesDisabledMsg "insert") ∧
    StrSub "insert" (writesDisabledMsg "insert") ∧
    (handleCallTool false dbOkEmpty "insert" JsArg.jsNull).2.connectAttempts = 0 :=
  c1_write_gate_blocks_all dbOkEmpty "insert" JsArg.jsNull (by decide)

/-- C2 counterexample: with the write-enable flag false, an insert call with
malformed arguments (null, no sql string) is answered by the writes-disabled
policy outcome, not by the protocol-level invalid-params error the claim
requires for every combination of tool name and flag value. -/
theorem c2_counterexample :
    isValidQueryArgs JsArg.jsNull = false ∧
    (handleCallTool false dbOkEmpty "insert" JsArg.jsNull).1 =
      HandlerResult.outcome ⟨writesDisabledMsg "insert", true⟩ := ⟨rfl, rfl⟩

/-- C2 amended: malformed arguments yield the protocol-level invalid-params
error with no connection attempt for the query tool under either flag
value, and for the write tools when the write-enable flag is true; when the
flag is false the write tools return the writes-disabled policy outcome
before arguments are inspected. -/
theorem c2_invalid_args_protocol_error (allowW : Bool) (db : DbBehavior)
    (toolName : String) (args : JsArg)
    (hinvalid : isValidQueryArgs args = false)
    (hscope : toolName = "query" ∨ (toolName ∈ writeToolNames ∧ allowW = true)) :
    handleCallTool allowW db toolName args =
      (.protocolError .invalidParams (invalidArgsMsg toolName), noDbTrace) ∧
    (handleCallTool allowW db toolName args).2.connectAttempts = 0 := by
  have hinvalidW : isValidWriteArgs args = false := hinvalid
  rcases hscope with rfl | ⟨hmem, rfl⟩
  · have he : handleCallTool allowW db "query" args =
        (.protocolError .invalidParams (invalidArgsMsg "query"), noDbTrace) := by
      rw [handle_query_eq]
      simp [hinvalid]
    exact ⟨he, by rw [he]; rfl⟩
  · have he : handleCallTool true db toolName args =
        (.protocolError .invalidParams (invalidArgsMsg toolName), noDbTrace) := by
      rw [handle_write_eq true db args toolName hmem]
      simp [hinvalidW]
    exact ⟨he, by rw [he]; rfl⟩

/-- C2 witness: a query call with a bare string argument. -/
theorem c2_invalid_args_protocol_error_witness :
    handleCallTool false dbOkEmpty "query" (JsArg.jsStr "SELECT 1") =
      (.protocolError .invalidParams (invalidArgsMsg "query"), noDbTrace) ∧
    (handleCallTool false dbOkEmpty "query" (JsArg.jsStr "SELECT 1")).2.connectAttempts = 0 :=
  c2_invalid_args_protocol_error false dbOkEmpty "query" (JsArg.jsStr "SELECT 1")
    (by decide) (Or.inl rfl)

/-- C3 counterexample: the statement `showcase tables` has leading token
`showcase`, which is none of select/show/describe, yet the query tool does
not return the flagged-error outcome: it opens a connection and executes,
because the code tests `startsWith('show')` on the raw prefix, not the
leading token. -/
theorem c3_counterexample :
    firstToken (jsTrim (jsToLower "showcase tables")) ∉ ["select", "show", "describe"] ∧
    (handleCallTool false dbOkEmpty "query"
        (JsArg.jsObj [("sql", JsArg.jsStr "showcase tables")])).2.connectAttempts = 1 ∧
    (handleCallTool false dbOkEmpty "query"
        (JsArg.jsObj [("sql", JsArg.jsStr "showcase tables")])).1 =
      HandlerResult.outcome ⟨"[]", false⟩ :=
  ⟨by decide, rfl, rfl⟩

/-- C3 amended: for every query invocation whose statement, lower-cased and
trimmed, does not start with the prefix `select`, `show` or `describe`, the
tool returns the flagged-error outcome naming SELECT/SHOW/DESCRIBE and no
database connection is attempted. -/
theorem c3_query_prefix_guard (allowW : Bool) (db : DbBehavior) (args : JsArg)
    (hargs : isValidQueryArgs args = true)
    (h1 : (jsStartsWith (jsTrim (jsToLower (getSqlField args))) "select") = false)
    (h2 : (jsStartsWith (jsTrim (jsToLower (getSqlField args))) "show") = false)
    (h3 : (jsStartsWith (jsTrim (jsToLower (getSqlField args))) "describe") = false) :
    handleCallTool allowW db "query" args = (.outcome ⟨queryOnlyMsg, true⟩, noDbTrace) ∧
    (handleCallTool allowW db "query" args).2.connectAttempts = 0 := by
  have he : handleCallTool allowW db "query" args =
      (.outcome ⟨queryOnlyMsg, true⟩, noDbTrace) := by
    rw [handle_query_eq]
    simp [hargs, h1, h2, h3]
  exact ⟨he, by rw [he]; rfl⟩

/-- C3 witness: a DROP statement is rejected without touching the driver. -/
theorem c3_query_prefix_guard_witness :
    handleCallTool false dbOkEmpty "query"
        (JsArg.jsObj [("sql", JsArg.jsStr "DROP TABLE t")]) =
      (.outcome ⟨queryOnlyMsg, true⟩, noDbTrace) ∧
    (handleCallTool false dbOkEmpty "query"
        (JsArg.jsObj [("sql", JsArg.jsStr "DROP TABLE t")])).2.connectAttempts = 0 :=
  c3_query_prefix_guard false dbOkEmpty (JsArg.jsObj [("sql", JsArg.jsStr "DROP TABLE t")])
    (by decide) (by decide) (by decide) (by decide)

/-- C4 counterexample: with writes enabled, calling the insert tool with the
statement `inserted into t (x) values (1)` — whose first token is
`inserted`, not the exact tool name — is nevertheless accepted and
executed, because the code tests only `startsWith(toolName)`. -/
theorem c4_counterexample :
    firstToken (jsTrim (jsToLower "inserted into t (x) values (1)")) ≠ "insert" ∧
    (handleCallTool true dbOkEmpty "insert"
        (JsArg.jsObj [("sql", JsArg.jsStr "inserted into t (x) values (1)")])).2.executed =
      ["inserted into t (x) values (1)"] ∧
    (handleCallTool true dbOkEmpty "insert"
        (JsArg.jsObj [("sql", JsArg.jsStr "inserted into t (x) values (1)")])).1 =
      HandlerResult.outcome ⟨"INSERT successful. Affected rows: 0.", false⟩ :=
  ⟨by decide, rfl, rfl⟩

/-- C4 amended: with writes enabled, an insert/update/delete statement is
accepted and handed to the write execution path iff its lower-cased,
trimmed text starts with the tool name as a prefix; otherwise the
flagged-error outcome is returned and nothing is executed. -/
theorem c4_write_prefix_guard (db : DbBehavior) (toolName : String) (args : JsArg)
    (hmem : toolName ∈ writeToolNames) (hargs : isValidQueryArgs args = true) :
    ((jsStartsWith (jsTrim (jsToLower (getSqlField args))) toolName = true) →
      handleCallTool true db toolName args =
        (.outcome (executeWrite db (getSqlField args) toolName).1,
          (executeWrite db (getSqlField args) toolName).2)) ∧
    ((jsStartsWith (jsTrim (jsToLower (getSqlField args))) toolName = false) →
      handleCallTool true db toolName args =
        (.outcome ⟨stmtMismatchMsg toolName, true⟩, noDbTrace) ∧
      (handleCallTool true db toolName args).2.executed = []) := by
  have hargsW : isValidWriteArgs args = true := hargs
  constructor
  · intro hp
    rw [handle_write_eq true db args toolName hmem]
    simp [hargsW, hp]
  · intro hp
    have he : handleCallTool true db toolName args =
        (.outcome ⟨stmtMismatchMsg toolName, true⟩, noDbTrace) := by
      rw [handle_write_eq true db args toolName hmem]
      simp [hargsW, hp]
    exact ⟨he, by rw [he]; rfl⟩

/-- C4 witness: a matching INSERT statement reaches the write path; an
update call carrying a DELETE statement is rejected unexecuted. -/
theorem c4_write_prefix_guard_witness :
    handleCallTool true dbOkEmpty "insert"
        (JsArg.jsObj [("sql", JsArg.jsStr "INSERT INTO t VALUES (1)")]) =
      (.outcome (executeWrite dbOkEmpty "INSERT INTO t VALUES (1)" "insert").1,
        (executeWrite dbOkEmpty "INSERT INTO t VALUES (1)" "insert").2) ∧
    handleCallTool true dbOkEmpty "update"
        (JsArg.jsObj [("sql", JsArg.jsStr "DELETE FROM t WHERE id=1")]) =
      (.outcome ⟨stmtMismatchMsg "update", true⟩, noDbTrace) :=
  ⟨(c4_write_prefix_guard dbOkEmpty "insert"
      (JsArg.jsObj [("sql", JsArg.jsStr "INSERT INTO t VALUES (1)")])
      (by decide) (by decide)).1 (by decide),
   ((c4_write_prefix_guard dbOkEmpty "update"
      (JsArg.jsObj [("sql", JsArg.jsStr "DELETE FROM t WHERE id=1")])
      (by decide) (by decide)).2 (by decide)).1⟩

/-- A driver oracle whose connection attempt is refused. -/
def dbConnFail : DbBehavior :=
  ⟨.error "Connection refused", fun _ => .error "Connection refused",
    fun _ => .error "Connection refused"⟩

/-- A driver oracle that connects but rejects every statement. -/
def dbExecFail : DbBehavior :=
  ⟨.ok (), fun _ => .error "Syntax error", fun _ => .error "Syntax error"⟩

/-- C5: whenever the database operation fails — at connection time or at
execution time, on the read or on the write path — the gateway returns a
flagged-error outcome whose text is the engine message prefixed by the
fixed stage marker, and the trace shows every opened connection released
(released = opened on every failure path).  Both gateways return a plain
value for every oracle, embedding the guarantee that no exception
propagates past this boundary. -/
theorem c5_error_normalization (db : DbBehavior) (sql op e : String) :
    (db.connect = .error e →
      executeQuery db sql =
        (⟨"MySQL Query Error: " ++ e, true⟩, ⟨1, 0, 0, []⟩)) ∧
    (db.connect = .ok () → db.readRows sql = .error e →
      executeQuery db sql =
        (⟨"MySQL Query Error: " ++ e, true⟩, ⟨1, 1, 1, [sql]⟩)) ∧
    (db.connect = .error e →
      executeWrite db sql op =
        (⟨"MySQL " ++ jsToUpper op ++ " Error: " ++ e, true⟩, ⟨1, 0, 0, []⟩)) ∧
    (db.connect = .ok () → db.writeResult sql = .error e →
      executeWrite db sql op =
        (⟨"MySQL " ++ jsToUpper op ++ " Error: " ++ e, true⟩, ⟨1, 1, 1, [sql]⟩)) := by
  refine ⟨fun h1 => ?_, fun h1 h2 => ?_, fun h1 => ?_, fun h1 h2 => ?_⟩
  · simp [executeQuery, h1]
  · simp [executeQuery, h1, h2]
  · simp [executeWrite, h1]
  · simp [executeWrite, h1, h2]

/-- C5 witness: a refused connection on the read path and a rejected
statement on the write path. -/
theorem c5_error_normalization_witness :
    executeQuery dbConnFail "SELECT 1" =
      (⟨"MySQL Query Error: Connection refused", true⟩, ⟨1, 0, 0, []⟩) ∧
    executeWrite dbExecFail "DELETE FROM t" "delete" =
      (⟨"MySQL DELETE Error: Syntax error", true⟩, ⟨1, 1, 1, ["DELETE FROM t"]⟩) :=
  ⟨(c5_error_normalization dbConnFail "SELECT 1" "delete" "Connection refused").1 rfl,
   (c5_error_normalization dbExecFail "DELETE FROM t" "delete" "Syntax error").2.2.2 rfl rfl⟩

/-- C6: a successful read whose rows contain a bigint `n` anywhere yields a
non-error outcome whose text is the serialized JSON and contains the exact
decimal digits of `n` contiguously.  The serializer is a total function of
the row set, embedding the fact that the bigint replacer prevents any
serialization exception. -/
theorem c6_bigint_exact_decimal (db : DbBehavior) (sql : String) (rows : JsValue)
    (n : Int) (hconn : db.connect = .ok ()) (hrows : db.readRows sql = .ok rows)
    (hocc : OccursBig n rows) (_hbig : n > 2 ^ 53 - 1) :
    (executeQuery db sql).1.isError = false ∧
    (executeQuery db sql).1.text = jsonStringify 0 rows ∧
    StrSub (Int.repr n) ((executeQuery db sql).1.text) := by
  have he : executeQuery db sql = (⟨jsonStringify 0 rows, false⟩, ⟨1, 1, 1, [sql]⟩) := by
    simp [executeQuery, hconn, hrows]
  rw [he]
  exact ⟨rfl, rfl, occursBig_strSub hocc 0⟩

/-- A row set carrying the largest signed 64-bit value as a bigint. -/
def bigRows : JsValue :=
  .jArr [.jObj [("id", .jBig 9223372036854775807)]]

/-- A driver oracle that answers every read with `bigRows`. -/
def dbBig : DbBehavior :=
  ⟨.ok (), fun _ => .ok bigRows, fun _ => .error "writes unsupported"⟩

/-- C6 witness: the serialized text for a row set carrying 2^63 - 1 contains
its exact decimal digits, which exceed 2^53 - 1. -/
theorem c6_bigint_exact_decimal_witness :
    ((executeQuery dbBig "SELECT id FROM t").1.isError = false ∧
      (executeQuery dbBig "SELECT id FROM t").1.text = jsonStringify 0 bigRows ∧
      StrSub (Int.repr 9223372036854775807)
        ((executeQuery dbBig "SELECT id FROM t").1.text)) ∧
    Int.repr 9223372036854775807 = "9223372036854775807" :=
  ⟨c6_bigint_exact_decimal dbBig "SELECT id FROM t" bigRows 9223372036854775807
      rfl rfl
      (OccursBig.inArr
        (OccursBig.inObj OccursBig.here (List.mem_singleton.mpr rfl))
        (List.mem_singleton.mpr rfl))
      (by norm_num),
   rfl⟩

theorem strAppend_assoc (a b c : String) : a ++ b ++ c = a ++ (b ++ c) := by
  cases a with
  | mk la =>
    cases b with
    | mk lb =>
      cases c with
      | mk lc =>
        show String.mk (la ++ lb ++ lc) = String.mk (la ++ (lb ++ lc))
        rw [List.append_assoc]

theorem strAppend_empty (a : String) : a ++ "" = a := by
  cases a with
  | mk la =>
    show String.mk (la ++ []) = String.mk la
    rw [List.append_nil]

theorem strEq_of_data {a b : String} (h : a.data = b.data) : a = b := by
  cases a
  cases b
  exact congrArg String.mk h

/-- C7: a successful write produces a non-error outcome whose text is the
upper-cased operation plus " successful.", with the affected-rows clause
appended exactly when the result carries an affected-row count, and the
insert-id clause appended exactly when the result carries a nonzero
generated identifier (an insertId of 0 contributes nothing). -/
theorem c7_write_success_message (db : DbBehavior) (sql op : String) (r : WriteResult)
    (hconn : db.connect = .ok ()) (hw : db.writeResult sql = .ok r) :
    (executeWrite db sql op).1.isError = false ∧
    (executeWrite db sql op).1.text =
      jsToUpper op ++ " successful." ++
        (match r.affectedRows with
          | some k => " Affected rows: " ++ Nat.repr k ++ "."
          | none => "") ++
        (match r.insertId with
          | some id => if id ≠ 0 then " Insert ID: " ++ Nat.repr id ++ "." else ""
          | none => "") := by
  obtain ⟨aff, iid⟩ := r
  constructor
  · rcases aff with _ | k <;> rcases iid with _ | id <;>
      simp [executeWrite, hconn, hw]
  · rcases aff with _ | k <;> rcases iid with _ | id <;>
      simp only [executeWrite, hconn, hw] <;>
      (try split_ifs) <;>
      (apply strEq_of_data
       simp [strData_append, List.append_assoc])

/-- A driver oracle answering writes with three affected rows and no
generated identifier (insertId 0). -/
def dbDel3 : DbBehavior :=
  ⟨.ok (), fun _ => .error "reads unsupported", fun _ => .ok ⟨some 3, some 0⟩⟩

/-- A driver oracle answering writes with one affected row and insertId 42. -/
def dbIns42 : DbBehavior :=
  ⟨.ok (), fun _ => .error "reads unsupported", fun _ => .ok ⟨some 1, some 42⟩⟩

/-- C7 witness: a mocked delete with affectedRows 3 and insertId 0 yields
exactly "DELETE successful. Affected rows: 3." (no Insert ID clause), and a
mocked insert with insertId 42 includes "Insert ID: 42.". -/
theorem c7_write_success_message_witness :
    (executeWrite dbDel3 "DELETE FROM t WHERE id=1" "delete").1.text =
      "DELETE successful. Affected rows: 3." ∧
    (executeWrite dbIns42 "INSERT INTO t VALUES (1)" "insert").1.text =
      "INSERT successful. Affected rows: 1. Insert ID: 42." :=
  ⟨((c7_write_success_message dbDel3 "DELETE FROM t WHERE id=1" "delete"
      ⟨some 3, some 0⟩ rfl rfl).2).trans (by decide),
   ((c7_write_success_message dbIns42 "INSERT INTO t VALUES (1)" "insert"
      ⟨some 1, some 42⟩ rfl rfl).2).trans (by decide)⟩

theorem executeQuery_executed (db : DbBehavior) (q : String) :
    ∀ s ∈ (executeQuery db q).2.executed, s = q := by
  intro s hs
  rcases hc : db.connect with e | u
  · simp [executeQuery, hc] at hs
  · rcases hr : db.readRows q with e2 | rows <;>
      simp [executeQuery, hc, hr] at hs <;> exact hs

theorem executeWrite_executed (db : DbBehavior) (q op : String) :
    ∀ s ∈ (executeWrite db q op).2.executed, s = q := by
  intro s hs
  rcases hc : db.connect with e | u
  · simp [executeWrite, hc] at hs
  · rcases hr : db.writeResult q with e2 | res <;>
      simp [executeWrite, hc, hr] at hs <;> exact hs

theorem handle_executed_cases (allowW : Bool) (db : DbBehavior) (toolName : String)
    (args : JsArg) :
    (handleCallTool allowW db toolName args).2.executed = [] ∨
    (handleCallTool allowW db toolName args).2 = (executeQuery db (getSqlField args)).2 ∨
    (handleCallTool allowW db toolName args).2 =
      (executeWrite db (getSqlField args) toolName).2 := by
  unfold handleCallTool
  split
  · split
    · left; rfl
    · dsimp only
      split
      · left; rfl
      · right; left; rfl
  · split
    · split
      · left; rfl
      · split
        · left; rfl
        · dsimp only
          split
          · left; rfl
          · right; right; rfl
    · left; rfl

/-- C8: the statement handed to the gateway and executed against the
database is always the original `args.sql`, unmodified; on acceptance the
handler result is exactly the gateway result applied to the raw statement,
while lower-casing and trimming are used only inside the prefix tests. -/
theorem c8_original_statement_executed (allowW : Bool) (db : DbBehavior)
    (toolName : String) (args : JsArg) :
    (∀ s ∈ (handleCallTool allowW db toolName args).2.executed, s = getSqlField args) ∧
    (toolName = "query" → isValidQueryArgs args = true →
      (jsStartsWith (jsTrim (jsToLower (getSqlField args))) "select" ||
        jsStartsWith (jsTrim (jsToLower (getSqlField args))) "show" ||
        jsStartsWith (jsTrim (jsToLower (getSqlField args))) "describe") = true →
      handleCallTool allowW db toolName args =
        (.outcome (executeQuery db (getSqlField args)).1,
          (executeQuery db (getSqlField args)).2)) ∧
    (toolName ∈ writeToolNames → allowW = true → isValidQueryArgs args = true →
      jsStartsWith (jsTrim (jsToLower (getSqlField args))) toolName = true →
      handleCallTool allowW db toolName args =
        (.outcome (executeWrite db (getSqlField args) toolName).1,
          (executeWrite db (getSqlField args) toolName).2)) := by
  refine ⟨?_, ?_, ?_⟩
  · intro s hs
    rcases handle_executed_cases allowW db toolName args with h | h | h
    · rw [h] at hs
      cases hs
    · rw [h] at hs
      exact executeQuery_executed db (getSqlField args) s hs
    · rw [h] at hs
      exact executeWrite_executed db (getSqlField args) toolName s hs
  · intro ht hv hacc
    subst ht
    have hcond : (!jsStartsWith (jsTrim (jsToLower (getSqlField args))) "select" &&
        !jsStartsWith (jsTrim (jsToLower (getSqlField args))) "show" &&
        !jsStartsWith (jsTrim (jsToLower (getSqlField args))) "describe") = false := by
      cases h1 : jsStartsWith (jsTrim (jsToLower (getSqlField args))) "select" <;>
        cases h2 : jsStartsWith (jsTrim (jsToLower (getSqlField args))) "show" <;>
        cases h3 : jsStartsWith (jsTrim (jsToLower (getSqlField args))) "describe" <;>
        simp_all
    rw [handle_query_eq]
    simp [hv, hcond]
  · intro hmem hA hv hps
    subst hA
    have hvW : isValidWriteArgs args = true := hv
    rw [handle_write_eq true db args toolName hmem]
    simp [hvW, hps]

/-- C8 witness: an accepted query reaches the gateway with the raw text. -/
theorem c8_original_statement_executed_witness :
    handleCallTool false dbOkEmpty "query"
        (JsArg.jsObj [("sql", JsArg.jsStr "SELECT 1")]) =
      (.outcome (executeQuery dbOkEmpty "SELECT 1").1,
        (executeQuery dbOkEmpty "SELECT 1").2) :=
  (c8_original_statement_executed false dbOkEmpty "query"
      (JsArg.jsObj [("sql", JsArg.jsStr "SELECT 1")])).2.1 rfl (by decide) (by decide)

/-- C9: the write-enable flag is true exactly when the environment variable
equals the lower-case string true; TRUE, True, 1, yes and an unset variable
all leave it false (so the write tools stay disabled, by C1's gate). -/
theorem c9_flag_requires_exact_true (v : Option String) :
    (mysqlAllowWriteOps v = true ↔ v = some "true") ∧
    mysqlAllowWriteOps (some "TRUE") = false ∧
    mysqlAllowWriteOps (some "True") = false ∧
    mysqlAllowWriteOps (some "1") = false ∧
    mysqlAllowWriteOps (some "yes") = false ∧
    mysqlAllowWriteOps none = false := by
  refine ⟨?_, by decide, by decide, by decide, by decide, by decide⟩
  simp [mysqlAllowWriteOps]

/-- C10 counterexample: MYSQL_PORT set to the non-numeric text 12abc parses
to 12 — not NaN — and MYSQL_PORT set to the empty string falls back to the
default 3306; in both cases startup succeeds, refuting the claim that every
set but non-numeric port value yields NaN. -/
theorem c10_counterexample :
    loadStartup ⟨some "h", some "u", some "p", some "d", some "12abc", none⟩ =
      .ok (⟨"h", "u", "p", "d", JsNumber.num 12⟩, false) ∧
    loadStartup ⟨some "h", some "u", some "p", some "d", some "", none⟩ =
      .ok (⟨"h", "u", "p", "d", JsNumber.num 3306⟩, false) := ⟨rfl, rfl⟩

/-- C10 amended: startup fails fast exactly when one of host, user,
password or database is unset or empty; the port is never validated — when
the four are present and MYSQL_PORT is set and non-empty, the server starts
with `parseInt(value, 10)` as its configured port, whatever that parse
produced (NaN included), alongside the write flag parsed from the
environment. -/
theorem c10_port_never_validated (env : MysqlEnv) :
    ((∃ msg, loadStartup env = .error msg) ↔
      (truthyStr env.host = false ∨ truthyStr env.user = false ∨
        truthyStr env.password = false ∨ truthyStr env.database = false)) ∧
    (∀ s, truthyStr env.host = true → truthyStr env.user = true →
      truthyStr env.password = true → truthyStr env.database = true →
      env.port = some s → s.isEmpty = false →
      loadStartup env =
        .ok (⟨env.host.getD "", env.user.getD "", env.password.getD "",
              env.database.getD "", jsParseInt10 s⟩,
             mysqlAllowWriteOps env.allowWriteOps)) := by
  constructor
  · cases hh : truthyStr env.host <;> cases hu : truthyStr env.user <;>
      cases hp : truthyStr env.password <;> cases hd : truthyStr env.database <;>
      simp [loadStartup, hh, hu, hp, hd]
  · intro s hh hu hp hd hport hs
    simp [loadStartup, hh, hu, hp, hd, hport, hs]

/-- C10 witness: with all four required variables present and
MYSQL_PORT=abc, the server starts and its configured port is NaN. -/
theorem c10_port_never_validated_witness :
    loadStartup ⟨some "h", some "u", some "p", some "d", some "abc", none⟩ =
      .ok (⟨"h", "u", "p", "d", jsParseInt10 "abc"⟩, mysqlAllowWriteOps none) ∧
    jsParseInt10 "abc" = JsNumber.nan :=
  ⟨(c10_port_never_validated ⟨some "h", some "u", some "p", some "d", some "abc", none⟩).2
      "abc" rfl rfl rfl rfl rfl rfl,
   rfl⟩
